import Mathlib

/-
Verification of the Perfect_Trade backend bootstrap layer: a shallow
embedding of the Go sources (transaction manager, server lifecycle,
connection pool provider, error classifier, configuration env helpers)
with theorems about their behaviour.

Go errors are modelled by the inductive GoError: errors.New produces a
sentinel value (identified by a unique id, since Go compares sentinel
errors by identity), and fmt.Errorf with a single %w verb produces a
wrapping error whose rendered message is prefix ++ inner message ++
suffix (the suffix covers trailing %v-formatted material, which is
included in the text but not in the unwrap chain).

External effects (the database, the OS, the HTTP listener) are modelled
by oracle records giving the outcome of each effectful call, and the
embedded functions additionally return a trace of the effectful calls
they made, in order, so that ordering and exactly-once properties can be
stated.
-/

namespace PerfectTrade

/-- Go error values: sentinels from errors.New and wraps from fmt.Errorf
with one %w verb. -/
inductive GoError where
  | sent (id : Nat) (msg : String)
  | wrap (pre : String) (inner : GoError) (suf : String)
deriving DecidableEq

/-- Rendering of err.Error() for the modelled error values. -/
def errString : GoError → String
  | .sent _ m => m
  | .wrap pre inner suf => pre ++ errString inner ++ suf

/-- Model of errors.Is for targets in the modelled hierarchy: identity at
each level of the unwrap chain. -/
def errIs : GoError → GoError → Bool
  | e@(.wrap _ inner _), target => decide (e = target) || errIs inner target
  | e, target => decide (e = target)

/- Sentinel errors from internal/shared/errors/errors.go. -/

def ErrValidation : GoError := .sent 0 "validation failed"

def ErrNotFound : GoError := .sent 1 "resource not found"

def ErrAlreadyExists : GoError := .sent 2 "resource already exists"

def ErrInvalidInput : GoError := .sent 3 "invalid input"

def ErrBusinessRule : GoError := .sent 4 "business rule violation"

def ErrDatabase : GoError := .sent 5 "database error"

def ErrTransaction : GoError := .sent 6 "transaction error"

def ErrExternal : GoError := .sent 7 "external service error"

def ErrInternal : GoError := .sent 8 "internal error"

def ErrUnauthorized : GoError := .sent 9 "unauthorized"

def ErrForbidden : GoError := .sent 10 "forbidden"

/-- Condition of the default branch of classifyError: the error matches
none of the sentinels named in the switch. -/
def unclassified (e : GoError) : Bool :=
  !(errIs e ErrValidation || errIs e ErrNotFound || errIs e ErrAlreadyExists ||
    errIs e ErrInvalidInput || errIs e ErrBusinessRule || errIs e ErrUnauthorized ||
    errIs e ErrForbidden)

/-- classifyError from internal/shared/errors/http.go: maps an error to
an HTTP status, a machine code and a user-facing message. -/
def classifyError (err : GoError) : Nat × String × String :=
  if errIs err ErrValidation then (400, "VALIDATION_ERROR", errString err)
  else if errIs err ErrNotFound then (404, "NOT_FOUND", errString err)
  else if errIs err ErrAlreadyExists then (409, "CONFLICT", errString err)
  else if errIs err ErrInvalidInput then (400, "INVALID_INPUT", errString err)
  else if errIs err ErrBusinessRule then (400, "BUSINESS_RULE_VIOLATION", errString err)
  else if errIs err ErrUnauthorized then (401, "UNAUTHORIZED", "Authentication required")
  else if errIs err ErrForbidden then (403, "FORBIDDEN", "Access denied")
  else (500, "INTERNAL_ERROR", "An internal error occurred")

/-- The JSON error response body written by WriteError. -/
structure ErrorResponse where
  errMsg : String
  code : String
deriving DecidableEq

/-- writeError models WriteError from http.go: the wire-visible part of
the response, namely the status line and the JSON body (the log call has
no caller-visible effect). -/
def writeError (err : GoError) : Nat × ErrorResponse :=
  let c := classifyError err
  (c.1, { errMsg := c.2.2, code := c.2.1 })

/- Context model: a Go context.Context is modelled as an association list
of key/value pairs, newest first, as built by context.WithValue. Keys of
the private contextKey type are distinguished from keys of any other
package by the CtxKey inductive; values are type-tagged so that the
failed-type-assertion path of GetTx is representable. A pgx.Tx handle is
modelled by a Nat identifier. -/

inductive CtxKey where
  | txKeyK
  | other (n : Nat)
deriving DecidableEq

inductive CtxVal where
  | vTx (handle : Nat)
  | vStr (s : String)
  | vInt (n : Int)
deriving DecidableEq

abbrev Context := List (CtxKey × CtxVal)

/-- ctx.Value(key): the most recently attached value for the key. -/
def ctxValue : Context → CtxKey → Option CtxVal
  | [], _ => none
  | (k, v) :: rest, key => if k = key then some v else ctxValue rest key

/-- context.WithValue(ctx, key, val). -/
def withValue (ctx : Context) (k : CtxKey) (v : CtxVal) : Context :=
  (k, v) :: ctx

/-- GetTx from transaction.go: reads the tx key and type-asserts to
pgx.Tx, returning nil (here none) when the assertion fails. -/
def getTx (ctx : Context) : Option Nat :=
  match ctxValue ctx CtxKey.txKeyK with
  | some (CtxVal.vTx t) => some t
  | _ => none

/- Transaction manager model. The database side of one WithTransaction
invocation is an oracle: the outcome of Begin, the identifier of the
transaction it would hand out, and the outcomes of Rollback and Commit.
The unit of work is a function of the derived context whose outcome is a
normal value, an error, or a panic. -/

/-- Oracle for the pool and transaction calls made by one
WithTransaction invocation. none means the call succeeds. -/
structure TxDB where
  beginRes : Option GoError
  newTxId : Nat
  rollbackRes : Option GoError
  commitRes : Option GoError

/-- Outcome of invoking the unit of work. -/
inductive FnOutcome (α : Type) where
  | ok (v : α)
  | fnErr (e : GoError)
  | panics (p : String)

/-- Effectful calls made by WithTransaction, in order. -/
inductive TxEvent where
  | beginEv
  | fnEv
  | commitEv
  | rollbackEv
deriving DecidableEq

/-- Result of WithTransaction: a normal (result, error) return, or a
re-raised panic. -/
inductive WTResult (α : Type) where
  | ret (res : Option α) (err : Option GoError)
  | panicked (p : String)
deriving DecidableEq

/-- The context derived inside WithTransaction, carrying the transaction
handle under the tx key. -/
def txDerivedCtx (db : TxDB) (ctx : Context) : Context :=
  withValue ctx CtxKey.txKeyK (CtxVal.vTx db.newTxId)

/-- WithTransaction from transaction.go: begin, run the unit of work
under the derived context, then commit on success, rollback on error
(combining the two errors when rollback also fails), and rollback before
re-raising on panic. Returns the ordered trace of effectful calls and
the result. -/
def withTransaction {α : Type} (db : TxDB) (ctx : Context)
    (fn : Context → FnOutcome α) : List TxEvent × WTResult α :=
  match db.beginRes with
  | some e =>
      ([], .ret none (some (.wrap "failed to begin transaction: " e "")))
  | none =>
      match fn (txDerivedCtx db ctx) with
      | .panics p =>
          ([.beginEv, .fnEv, .rollbackEv], .panicked p)
      | .fnErr e =>
          match db.rollbackRes with
          | some rbe =>
              ([.beginEv, .fnEv, .rollbackEv],
               .ret none (some (.wrap "tx error: " e
                 (", rollback error: " ++ errString rbe))))
          | none =>
              ([.beginEv, .fnEv, .rollbackEv], .ret none (some e))
      | .ok v =>
          match db.commitRes with
          | some ce =>
              ([.beginEv, .fnEv, .commitEv],
               .ret none (some (.wrap "failed to commit transaction: " ce "")))
          | none =>
              ([.beginEv, .fnEv, .commitEv], .ret (some v) none)

/- Server lifecycle model. Server.Start races the serve goroutine against
the shutdown-signal channel; whichever fires first is the FirstEvent.
The outcomes of httpServer.Shutdown (graceful drain bounded by the
shutdown timeout) and httpServer.Close (forced close) are oracles: none
means success, some e the error returned by that call. -/

/-- The first of the two raced events observed by the select in
Server.Start: a fatal error from ListenAndServe, or an OS termination
signal. -/
inductive FirstEvent where
  | fatalErr (e : GoError)
  | signal (name : String)

/-- Effectful steps taken by Server.Start, in order. -/
inductive SrvAction where
  | serveGo
  | shutdownCall
  | forceCloseCall
deriving DecidableEq

/-- Server.Start from server.go: on a fatal serve error, return it
wrapped; on a signal, attempt the graceful drain; on drain failure,
force-close and return the force-close error if that also fails,
otherwise the drain error wrapped; on clean drain, return nil. Returns
the ordered action trace and the error result (none = nil). -/
def serverStart (ev : FirstEvent) (shutdownRes closeRes : Option GoError) :
    List SrvAction × Option GoError :=
  match ev with
  | .fatalErr e =>
      ([.serveGo], some (.wrap "server error: " e ""))
  | .signal _ =>
      match shutdownRes with
      | none => ([.serveGo, .shutdownCall], none)
      | some e =>
          match closeRes with
          | some ce =>
              ([.serveGo, .shutdownCall, .forceCloseCall],
               some (.wrap "force close error: " ce ""))
          | none =>
              ([.serveGo, .shutdownCall, .forceCloseCall],
               some (.wrap "graceful shutdown error: " e ""))

/- Connection pool provider model. The pgx calls made by NewPostgresPool
(ParseConfig, NewWithConfig, Ping) are oracles; a constructed pool is a
record with a closed flag, and pgxpool.Pool.Close (which is internally
guarded by sync.Once) is modelled as idempotently setting that flag. -/

/-- A constructed pgxpool.Pool handle. -/
structure Pool where
  poolId : Nat
  closed : Bool
deriving DecidableEq

/-- Oracle for the pgx calls made by NewPostgresPool. none means the
call succeeds. -/
structure PoolOracle where
  parseRes : Option GoError
  constructRes : Option GoError
  pingRes : Option GoError

/-- Effectful steps taken by NewPostgresPool, in order. -/
inductive PoolAction where
  | parseCfg
  | constructPool
  | pingDb
  | closePool
deriving DecidableEq

/-- NewPostgresPool from postgres.go: parse the config, construct the
pool, ping it; tear the pool down on ping failure; every failure returns
a nil pool and a wrapped error. Returns the ordered action trace, the
pool (none = nil) and the error (none = nil). -/
def newPostgresPool (o : PoolOracle) : List PoolAction × Option Pool × Option GoError :=
  match o.parseRes with
  | some e =>
      ([.parseCfg], none, some (.wrap "unable to parse database config: " e ""))
  | none =>
      match o.constructRes with
      | some e =>
          ([.parseCfg, .constructPool], none,
           some (.wrap "unable to create connection pool: " e ""))
      | none =>
          match o.pingRes with
          | some e =>
              ([.parseCfg, .constructPool, .pingDb, .closePool], none,
               some (.wrap "unable to ping database: " e ""))
          | none =>
              ([.parseCfg, .constructPool, .pingDb],
               some { poolId := 0, closed := false }, none)

/-- pgxpool.Pool.Close: releases the pool; safe to call repeatedly. -/
def pgxPoolClose (p : Pool) : Pool :=
  { p with closed := true }

/-- Close from postgres.go: the nil guard then pool.Close(). A method
call on a nil pool would be a runtime fault, so the model returns in
Except: ok is a normal return, error a panic; the nil check makes the
error branch unreachable. -/
def dbClose : Option Pool → Except String (Option Pool)
  | some pool => .ok (some (pgxPoolClose pool))
  | none => .ok none

/- Configuration env helper model. The process environment is a function
from variable name to value, with the empty string standing for an unset
variable exactly as os.Getenv reports it. strconv.Atoi is modelled by
atoi below; time.ParseDuration is Go standard library code outside this
repository, so it is a parameter parse : String -> Option Int (result in
nanoseconds), with none meaning a parse error. -/

/-- Digit-string to Nat, none when empty or any character is not a
digit; helper for atoi. -/
def digitsToNat : List Char → Option Nat
  | [] => none
  | cs =>
      cs.foldl
        (fun acc c =>
          acc.bind (fun n =>
            if c.isDigit then some (n * 10 + (c.toNat - Char.toNat (Char.ofNat 48)))
            else none))
        (some 0)

/-- Model of strconv.Atoi: optional sign then decimal digits, rejecting
the empty string, stray characters and values outside the int64 range
(Go returns a non-nil error in each of those cases). -/
def atoi (s : String) : Option Int :=
  let signed : Option Int :=
    match s.data with
    | [] => none
    | c :: rest =>
        if c = Char.ofNat 43 then (digitsToNat rest).map Int.ofNat
        else if c = Char.ofNat 45 then (digitsToNat rest).map (fun n => -(Int.ofNat n))
        else (digitsToNat s.data).map Int.ofNat
  signed.bind (fun v =>
    if v < -(2 ^ 63) ∨ 2 ^ 63 - 1 < v then none else some v)

/-- getEnvAsInt from config.go: the raw value when set and parseable,
the default otherwise. -/
def getEnvAsInt (env : String → String) (key : String) (defaultValue : Int) : Int :=
  let valueStr := env key
  if valueStr = "" then defaultValue
  else
    match atoi valueStr with
    | none => defaultValue
    | some v => v

/-- getEnvAsDuration from config.go, with time.ParseDuration supplied as
the parameter parse: the parsed duration when set and parseable, the
default otherwise. -/
def getEnvAsDuration (env : String → String) (parse : String → Option Int)
    (key : String) (defaultValue : Int) : Int :=
  let valueStr := env key
  if valueStr = "" then defaultValue
  else
    match parse valueStr with
    | none => defaultValue
    | some v => v

/- Helper lemmas. -/

theorem errIs_wrap (pre suf : String) (inner : GoError) (id : Nat) (msg : String) :
    errIs (.wrap pre inner suf) (.sent id msg) = errIs inner (.sent id msg) := by
  simp [errIs]

theorem errIs_self (e : GoError) : errIs e e = true := by
  cases e <;> simp [errIs]

theorem unclassified_wrap (pre suf : String) (e : GoError) :
    unclassified (.wrap pre e suf) = unclassified e := by
  simp [unclassified, ErrValidation, ErrNotFound, ErrAlreadyExists, ErrInvalidInput,
    ErrBusinessRule, ErrUnauthorized, ErrForbidden, errIs_wrap]

theorem classify_unclassified (e : GoError) (h : unclassified e = true) :
    classifyError e = (500, "INTERNAL_ERROR", "An internal error occurred") := by
  simp only [unclassified, Bool.not_eq_true', Bool.or_eq_false_iff] at h
  obtain ⟨⟨⟨⟨⟨⟨h1, h2⟩, h3⟩, h4⟩, h5⟩, h6⟩, h7⟩ := h
  simp [classifyError, h1, h2, h3, h4, h5, h6, h7]

/-- C1: when begin succeeds, the trace of WithTransaction is begin, then
the unit of work, then exactly one finalizer, which is commit or
rollback; on the panic path the finalizer is the rollback, executed
before the panic is re-raised; when begin fails, WithTransaction returns
a wrapped error at once and neither the unit of work nor commit nor
rollback executes. -/
theorem c1_withTransaction_exactly_one_finalizer {α : Type}
    (db : TxDB) (ctx : Context) (fn : Context → FnOutcome α) :
    (db.beginRes = none →
      ∃ fin, (fin = TxEvent.commitEv ∨ fin = TxEvent.rollbackEv) ∧
        (withTransaction db ctx fn).1 = [TxEvent.beginEv, TxEvent.fnEv, fin]) ∧
    (∀ e, db.beginRes = some e →
      (withTransaction db ctx fn).1 = [] ∧
      (withTransaction db ctx fn).2 =
        WTResult.ret none (some (GoError.wrap "failed to begin transaction: " e ""))) ∧
    (∀ p, db.beginRes = none → fn (txDerivedCtx db ctx) = FnOutcome.panics p →
      (withTransaction db ctx fn).1 = [TxEvent.beginEv, TxEvent.fnEv, TxEvent.rollbackEv] ∧
      (withTransaction db ctx fn).2 = WTResult.panicked p) := by
  refine ⟨?_, ?_, ?_⟩
  · intro hb
    cases hf : fn (txDerivedCtx db ctx) with
    | ok v =>
        cases hc : db.commitRes <;>
          exact ⟨TxEvent.commitEv, Or.inl rfl, by simp [withTransaction, hb, hf, hc]⟩
    | fnErr e =>
        cases hr : db.rollbackRes <;>
          exact ⟨TxEvent.rollbackEv, Or.inr rfl, by simp [withTransaction, hb, hf, hr]⟩
    | panics p =>
        exact ⟨TxEvent.rollbackEv, Or.inr rfl, by simp [withTransaction, hb, hf]⟩
  · intro e hb
    simp [withTransaction, hb]
  · intro p hb hf
    simp [withTransaction, hb, hf]

theorem c1_witness :
    (withTransaction (α := Nat) ⟨some ErrDatabase, 1, none, none⟩ []
        (fun _ => FnOutcome.ok 42)).1 = [] ∧
    (withTransaction (α := Nat) ⟨some ErrDatabase, 1, none, none⟩ []
        (fun _ => FnOutcome.ok 42)).2 =
      WTResult.ret none (some (GoError.wrap "failed to begin transaction: " ErrDatabase "")) :=
  (c1_withTransaction_exactly_one_finalizer ⟨some ErrDatabase, 1, none, none⟩ []
    (fun _ => FnOutcome.ok 42)).2.1 ErrDatabase rfl

/-- C2: when the unit of work returns an error, exactly one rollback and
no commit occurs; when the rollback succeeds, the unit-of-work error is
returned as the identical value; when the rollback fails, the returned
error wraps the original error and its message names both the original
error and the rollback failure. -/
theorem c2_rollback_on_unit_error {α : Type}
    (db : TxDB) (ctx : Context) (fn : Context → FnOutcome α) (e : GoError)
    (hb : db.beginRes = none)
    (hf : fn (txDerivedCtx db ctx) = FnOutcome.fnErr e) :
    (withTransaction db ctx fn).1.count TxEvent.rollbackEv = 1 ∧
    (withTransaction db ctx fn).1.count TxEvent.commitEv = 0 ∧
    (db.rollbackRes = none →
      (withTransaction db ctx fn).2 = WTResult.ret none (some e)) ∧
    (∀ rbe, db.rollbackRes = some rbe →
      (withTransaction db ctx fn).2 =
        WTResult.ret none (some (GoError.wrap "tx error: " e
          (", rollback error: " ++ errString rbe))) ∧
      errIs (GoError.wrap "tx error: " e (", rollback error: " ++ errString rbe)) e = true ∧
      errString (GoError.wrap "tx error: " e (", rollback error: " ++ errString rbe)) =
        "tx error: " ++ errString e ++ ", rollback error: " ++ errString rbe) := by
  cases hr : db.rollbackRes with
  | none =>
      have h : withTransaction db ctx fn =
          ([TxEvent.beginEv, TxEvent.fnEv, TxEvent.rollbackEv],
           WTResult.ret none (some e)) := by
        simp [withTransaction, hb, hf, hr]
      rw [h]
      refine ⟨by rfl, by rfl, fun _ => rfl, ?_⟩
      intro rbe hrbe
      simp at hrbe
  | some rbe0 =>
      have h : withTransaction db ctx fn =
          ([TxEvent.beginEv, TxEvent.fnEv, TxEvent.rollbackEv],
           WTResult.ret none (some (GoError.wrap "tx error: " e
             (", rollback error: " ++ errString rbe0)))) := by
        simp [withTransaction, hb, hf, hr]
      rw [h]
      refine ⟨by rfl, by rfl, ?_, ?_⟩
      · intro hnone
        simp at hnone
      · intro rbe hrbe
        injection hrbe with hh
        subst hh
        refine ⟨rfl, ?_, ?_⟩
        · simp [errIs, errIs_self]
        · simp [errString, String.append_assoc]

theorem c2_witness :
    (withTransaction (α := Nat) ⟨none, 1, none, none⟩ []
        (fun _ => FnOutcome.fnErr ErrNotFound)).2 =
      WTResult.ret none (some ErrNotFound) :=
  (c2_rollback_on_unit_error ⟨none, 1, none, none⟩ []
    (fun _ => FnOutcome.fnErr ErrNotFound) ErrNotFound rfl rfl).2.2.1 rfl

/-- C3: when the unit of work succeeds and commit fails, WithTransaction
returns a nil result together with an error wrapping the commit failure;
commit executed exactly once; under the classifier that error lands in
the internal 5xx bucket, so the failure is reported to the caller as an
infrastructure-side error and the successful result is discarded. -/
theorem c3_commit_failure_discards_result {α : Type}
    (db : TxDB) (ctx : Context) (fn : Context → FnOutcome α) (v : α) (ce : GoError)
    (hb : db.beginRes = none)
    (hf : fn (txDerivedCtx db ctx) = FnOutcome.ok v)
    (hc : db.commitRes = some ce)
    (hd : unclassified ce = true) :
    (withTransaction db ctx fn).2 =
      WTResult.ret none (some (GoError.wrap "failed to commit transaction: " ce "")) ∧
    (withTransaction db ctx fn).1.count TxEvent.commitEv = 1 ∧
    (withTransaction db ctx fn).1.count TxEvent.rollbackEv = 0 ∧
    classifyError (GoError.wrap "failed to commit transaction: " ce "") =
      (500, "INTERNAL_ERROR", "An internal error occurred") := by
  have h : withTransaction db ctx fn =
      ([TxEvent.beginEv, TxEvent.fnEv, TxEvent.commitEv],
       WTResult.ret none (some (GoError.wrap "failed to commit transaction: " ce ""))) := by
    simp [withTransaction, hb, hf, hc]
  rw [h]
  refine ⟨rfl, by rfl, by rfl, ?_⟩
  exact classify_unclassified _ (by rw [unclassified_wrap]; exact hd)

theorem c3_witness :
    (withTransaction (α := Nat) ⟨none, 1, none, some ErrExternal⟩ []
        (fun _ => FnOutcome.ok 7)).2 =
      WTResult.ret none (some (GoError.wrap "failed to commit transaction: " ErrExternal "")) :=
  (c3_commit_failure_discards_result ⟨none, 1, none, some ErrExternal⟩ []
    (fun _ => FnOutcome.ok 7) 7 ErrExternal rfl rfl rfl (by decide)).1

/-- C4: when a termination signal is received and the graceful drain
fails (the drain-timeout case), Start force-closes the connections; if
the forced close fails its error is returned, otherwise the drain error
is returned wrapped; the returned error is never nil in this case. -/
theorem c4_drain_timeout_forces_close (e : GoError) (s : String)
    (closeRes : Option GoError) :
    SrvAction.forceCloseCall ∈ (serverStart (.signal s) (some e) closeRes).1 ∧
    (∀ ce, closeRes = some ce →
      (serverStart (.signal s) (some e) closeRes).2 =
        some (GoError.wrap "force close error: " ce "")) ∧
    (closeRes = none →
      (serverStart (.signal s) (some e) closeRes).2 =
        some (GoError.wrap "graceful shutdown error: " e "")) ∧
    (serverStart (.signal s) (some e) closeRes).2 ≠ none := by
  cases closeRes with
  | none =>
      refine ⟨by simp [serverStart], ?_, fun _ => by simp [serverStart], by simp [serverStart]⟩
      intro ce hce
      simp at hce
  | some ce0 =>
      refine ⟨by simp [serverStart], ?_, ?_, by simp [serverStart]⟩
      · intro ce hce
        injection hce with hh
        subst hh
        simp [serverStart]
      · intro hn
        simp at hn

theorem c4_witness :
    (serverStart (FirstEvent.signal "SIGTERM") (some ErrInternal) none).2 =
      some (GoError.wrap "graceful shutdown error: " ErrInternal "") :=
  (c4_drain_timeout_forces_close ErrInternal "SIGTERM" none).2.2.1 rfl

/-- C5: when a termination signal is received and the graceful drain
completes within the shutdown timeout, Start returns nil, while a fatal
listener error from the serve goroutine is returned wrapped with
context. -/
theorem c5_clean_drain_returns_nil (s : String) (closeRes : Option GoError)
    (e : GoError) (sr cr : Option GoError) :
    (serverStart (.signal s) none closeRes).2 = none ∧
    (serverStart (.fatalErr e) sr cr).2 = some (GoError.wrap "server error: " e "") := by
  constructor <;> simp [serverStart]

/-- C6: every failure of config parsing, pool construction or the
liveness ping makes NewPostgresPool return a nil pool and a wrapped
error (landing in the internal 5xx classifier bucket when the underlying
error is unclassified); on ping failure the constructed pool is closed;
and a non-nil pool is returned only when parse, construction and ping
all succeeded. -/
theorem c6_pool_failures_return_nil (o : PoolOracle) :
    (∀ e, o.parseRes = some e →
      (newPostgresPool o).2.1 = none ∧
      (newPostgresPool o).2.2 =
        some (GoError.wrap "unable to parse database config: " e "") ∧
      (unclassified e = true →
        classifyError (GoError.wrap "unable to parse database config: " e "") =
          (500, "INTERNAL_ERROR", "An internal error occurred"))) ∧
    (∀ e, o.parseRes = none → o.constructRes = some e →
      (newPostgresPool o).2.1 = none ∧
      (newPostgresPool o).2.2 =
        some (GoError.wrap "unable to create connection pool: " e "") ∧
      (unclassified e = true →
        classifyError (GoError.wrap "unable to create connection pool: " e "") =
          (500, "INTERNAL_ERROR", "An internal error occurred"))) ∧
    (∀ e, o.parseRes = none → o.constructRes = none → o.pingRes = some e →
      (newPostgresPool o).2.1 = none ∧
      PoolAction.closePool ∈ (newPostgresPool o).1 ∧
      (newPostgresPool o).2.2 =
        some (GoError.wrap "unable to ping database: " e "") ∧
      (unclassified e = true →
        classifyError (GoError.wrap "unable to ping database: " e "") =
          (500, "INTERNAL_ERROR", "An internal error occurred"))) ∧
    (∀ p, (newPostgresPool o).2.1 = some p →
      o.parseRes = none ∧ o.constructRes = none ∧ o.pingRes = none) := by
  refine ⟨?_, ?_, ?_, ?_⟩
  · intro e hp
    refine ⟨by simp [newPostgresPool, hp], by simp [newPostgresPool, hp], ?_⟩
    intro hu
    exact classify_unclassified _ (by rw [unclassified_wrap]; exact hu)
  · intro e hp hc
    refine ⟨by simp [newPostgresPool, hp, hc], by simp [newPostgresPool, hp, hc], ?_⟩
    intro hu
    exact classify_unclassified _ (by rw [unclassified_wrap]; exact hu)
  · intro e hp hc hg
    refine ⟨by simp [newPostgresPool, hp, hc, hg], by simp [newPostgresPool, hp, hc, hg],
      by simp [newPostgresPool, hp, hc, hg], ?_⟩
    intro hu
    exact classify_unclassified _ (by rw [unclassified_wrap]; exact hu)
  · intro p hsome
    cases hp : o.parseRes with
    | some e => simp [newPostgresPool, hp] at hsome
    | none =>
        cases hc : o.constructRes with
        | some e => simp [newPostgresPool, hp, hc] at hsome
        | none =>
            cases hg : o.pingRes with
            | some e => simp [newPostgresPool, hp, hc, hg] at hsome
            | none => exact ⟨rfl, rfl, rfl⟩

theorem c6_witness :
    (newPostgresPool ⟨none, none, some ErrDatabase⟩).2.1 = none ∧
    PoolAction.closePool ∈ (newPostgresPool ⟨none, none, some ErrDatabase⟩).1 :=
  ⟨((c6_pool_failures_return_nil ⟨none, none, some ErrDatabase⟩).2.2.1
      ErrDatabase rfl rfl rfl).1,
   ((c6_pool_failures_return_nil ⟨none, none, some ErrDatabase⟩).2.2.1
      ErrDatabase rfl rfl rfl).2.1⟩

/-- C7: Close is nil-safe (a no-op on a nil pool), never faults on any
input, is idempotent (closing an already-returned state again returns
the same state with no fault), and the round trip of Close over any
outcome of NewPostgresPool never faults. -/
theorem c7_close_idempotent_nil_safe (x : Option Pool) (o : PoolOracle) :
    dbClose none = Except.ok none ∧
    (∃ q, dbClose x = Except.ok q) ∧
    (∀ q, dbClose x = Except.ok q → dbClose q = Except.ok q) ∧
    (∃ q, dbClose (newPostgresPool o).2.1 = Except.ok q) := by
  have htotal : ∀ y : Option Pool, ∃ q, dbClose y = Except.ok q := by
    intro y
    cases y with
    | none => exact ⟨none, rfl⟩
    | some p => exact ⟨some (pgxPoolClose p), rfl⟩
  refine ⟨rfl, htotal x, ?_, htotal _⟩
  intro q hq
  cases x with
  | none =>
      have : q = none := by
        simpa [dbClose] using hq.symm
      subst this
      rfl
  | some p =>
      have : q = some (pgxPoolClose p) := by
        simpa [dbClose] using hq.symm
      subst this
      simp [dbClose, pgxPoolClose]

theorem c7_witness :
    dbClose (some (Pool.mk 0 true)) = Except.ok (some (Pool.mk 0 true)) :=
  (c7_close_idempotent_nil_safe (some (Pool.mk 0 false)) ⟨none, none, none⟩).2.2.1
    (some (Pool.mk 0 true)) rfl

/-- C8: every error matching a domain-kind sentinel (Validation,
NotFound, AlreadyExists, InvalidInput, BusinessRule) is classified to a
4xx status with the error message itself; every error matching none of
the switch sentinels, which includes the four infrastructure sentinels
Database, Transaction, External and Internal, is classified to status
500 with code INTERNAL_ERROR and the fixed generic message, never the
underlying error text; and WriteError emits exactly the classified
triple. -/
theorem c8_classifier_4xx_and_500 (e : GoError) :
    ((errIs e ErrValidation || errIs e ErrNotFound || errIs e ErrAlreadyExists ||
      errIs e ErrInvalidInput || errIs e ErrBusinessRule) = true →
      400 ≤ (classifyError e).1 ∧ (classifyError e).1 < 500 ∧
      (classifyError e).2.2 = errString e) ∧
    (unclassified e = true →
      classifyError e = (500, "INTERNAL_ERROR", "An internal error occurred") ∧
      writeError e =
        (500, { errMsg := "An internal error occurred", code := "INTERNAL_ERROR" })) ∧
    classifyError ErrDatabase = (500, "INTERNAL_ERROR", "An internal error occurred") ∧
    classifyError ErrTransaction = (500, "INTERNAL_ERROR", "An internal error occurred") ∧
    classifyError ErrExternal = (500, "INTERNAL_ERROR", "An internal error occurred") ∧
    classifyError ErrInternal = (500, "INTERNAL_ERROR", "An internal error occurred") ∧
    (∀ s c m, classifyError e = (s, c, m) →
      writeError e = (s, { errMsg := m, code := c })) := by
  refine ⟨?_, ?_, by decide, by decide, by decide, by decide, ?_⟩
  · intro hd
    simp only [classifyError]
    split_ifs with h1 h2 h3 h4 h5 h6 h7
    · exact ⟨by norm_num, by norm_num, rfl⟩
    · exact ⟨by norm_num, by norm_num, rfl⟩
    · exact ⟨by norm_num, by norm_num, rfl⟩
    · exact ⟨by norm_num, by norm_num, rfl⟩
    · exact ⟨by norm_num, by norm_num, rfl⟩
    · simp [h1, h2, h3, h4, h5] at hd
    · simp [h1, h2, h3, h4, h5] at hd
    · simp [h1, h2, h3, h4, h5] at hd
  · intro hu
    have hcl := classify_unclassified e hu
    exact ⟨hcl, by simp [writeError, hcl]⟩
  · intro s c m hcl
    simp [writeError, hcl]

theorem c8_witness :
    400 ≤ (classifyError (GoError.wrap "get order: " ErrNotFound "")).1 ∧
    (classifyError (GoError.wrap "get order: " ErrNotFound "")).1 < 500 ∧
    (classifyError (GoError.wrap "get order: " ErrNotFound "")).2.2 =
      errString (GoError.wrap "get order: " ErrNotFound "") :=
  (c8_classifier_4xx_and_500 (GoError.wrap "get order: " ErrNotFound "")).1 (by decide)

/-- C9: GetTx is total and round-trips with the context derivation done
by WithTransaction: on the derived context it returns exactly the stored
transaction handle, and on the empty context, on a context holding a
value of the wrong type under the tx key, and on any context carrying no
transaction under the tx key, it returns nil. -/
theorem c9_getTx_roundtrip (db : TxDB) (ctx : Context) :
    getTx (txDerivedCtx db ctx) = some db.newTxId ∧
    getTx ([] : Context) = none ∧
    getTx (withValue [] CtxKey.txKeyK (CtxVal.vStr "not a tx")) = none ∧
    (∀ ctx2 : Context,
      (∀ t, ctxValue ctx2 CtxKey.txKeyK ≠ some (CtxVal.vTx t)) →
      getTx ctx2 = none) := by
  refine ⟨?_, rfl, rfl, ?_⟩
  · simp [getTx, txDerivedCtx, withValue, ctxValue]
  · intro ctx2 h
    unfold getTx
    cases hv : ctxValue ctx2 CtxKey.txKeyK with
    | none => rfl
    | some v =>
        cases v with
        | vTx t => exact absurd hv (h t)
        | vStr s => rfl
        | vInt n => rfl

theorem c9_witness :
    getTx [(CtxKey.other 3, CtxVal.vStr "request id")] = none :=
  (c9_getTx_roundtrip ⟨none, 0, none, none⟩ []).2.2.2
    [(CtxKey.other 3, CtxVal.vStr "request id")]
    (by intro t; simp [ctxValue])

/-- C10: getEnvAsInt and getEnvAsDuration are total and never report an
error: an unset variable (the empty string under the os.Getenv
convention) and a malformed value both yield the supplied default, so
the two cases are indistinguishable at the Load boundary. -/
theorem c10_env_helpers_default (env : String → String)
    (parse : String → Option Int) (key : String) (d dd : Int) :
    (env key = "" → getEnvAsInt env key d = d) ∧
    (atoi (env key) = none → getEnvAsInt env key d = d) ∧
    (env key = "" → getEnvAsDuration env parse key dd = dd) ∧
    (parse (env key) = none → getEnvAsDuration env parse key dd = dd) ∧
    (∀ s, atoi s = none →
      getEnvAsInt (fun _ => s) key d = getEnvAsInt (fun _ => "") key d) := by
  refine ⟨fun h => by simp [getEnvAsInt, h], ?_,
    fun h => by simp [getEnvAsDuration, h], ?_, ?_⟩
  · intro h
    by_cases he : env key = ""
    · simp [getEnvAsInt, he]
    · simp [getEnvAsInt, he, h]
  · intro h
    by_cases he : env key = ""
    · simp [getEnvAsDuration, he]
    · simp [getEnvAsDuration, he, h]
  · intro s hs
    by_cases he : s = ""
    · simp [getEnvAsInt, he]
    · simp [getEnvAsInt, he, hs]

theorem c10_witness :
    getEnvAsInt (fun _ => "not a number") "DB_PORT" 5432 = 5432 :=
  (c10_env_helpers_default (fun _ => "not a number") (fun _ => none)
    "DB_PORT" 5432 0).2.1 (by decide)

end PerfectTrade
